import Mathlib

/-!
Verification of the cop-cam surveillance pipeline.

Shallow embedding of the identity-resolution / tracking / reporting core:
  * `offline_preprocess.py` : person-id allocation and the per-track
    vote-buffer identity stabilizer inside `process_video`;
  * `helper.py`             : `batch_vector_search` and `find_best_match`;
  * `backend/face_database.py` : `FaceDatabase.add_person` / `update_last_seen`;
  * `backend/main.py`       : the face-database side effect of `report`
    and `WSManager.broadcast`;
  * `backend/simulation.py` : `SimulationReplay.replay_detections` pacing;
  * `offline_processor/merge_results.py` / `process_videos.py` : the global
    detection sort.

Python floats are modelled as rationals (`ℚ`), Python strings as Lean
`String`s (with ordering taken on the code points, as Python compares),
Python dicts either as insertion-ordered association lists or as records.
-/

namespace CopCam

/-! ## Person-id allocation (`offline_preprocess.get_person_id`) -/

/-- Category "A" (police) / "B" (criminal); the only two values the code
ever passes (`category = "B" if prediction in poi else "A"`). -/
inductive Category where
  | A
  | B
deriving DecidableEq, Repr

/-- Python `f"{n:03d}"`: decimal rendering of `n` left-padded with zeros to
at least three digits. -/
def pad3 (n : Nat) : String :=
  if n < 10 then "00" ++ toString n
  else if n < 100 then "0" ++ toString n
  else toString n

/-- The module-level mutable state of `offline_preprocess.py` that
`get_person_id` reads and writes: the two per-category counters
(`person_id_counter`, both starting at 1) and the `name_to_person_id`
dict (insertion-ordered association list). -/
structure PersonIdState where
  counterA : Nat
  counterB : Nat
  nameMap : List (String × String)
deriving DecidableEq, Repr

/-- The initial module state: `person_id_counter = {"A": 1, "B": 1}`,
`name_to_person_id = {}`. -/
def initPersonIdState : PersonIdState :=
  { counterA := 1, counterB := 1, nameMap := [] }

/-- Embedding of `offline_preprocess.get_person_id(name, category)`: return the mapped id
for an already-seen name, otherwise allocate `PREFIX_{counter:03d}`,
bump the category's counter and record the mapping.  Returns the id
together with the updated module state. -/
def get_person_id (st : PersonIdState) (name : String) (category : Category) :
    String × PersonIdState :=
  match st.nameMap.lookup name with
  | some pid => (pid, st)
  | none =>
    let tag : String := match category with
      | .A => "POLICE"
      | .B => "CRIM"
    let n : Nat := match category with
      | .A => st.counterA
      | .B => st.counterB
    let pid := tag ++ "_" ++ pad3 n
    (pid,
      { counterA := match category with
          | .A => st.counterA + 1
          | .B => st.counterA
        counterB := match category with
          | .A => st.counterB
          | .B => st.counterB + 1
        nameMap := st.nameMap ++ [(name, pid)] })

/-! ## Face database (`backend/face_database.py`) -/

/-- One entry of `face_database.json`, as written by `add_person`. -/
structure PersonRecord where
  name : String
  category : String
  image_path : String
  crime : String
  additional_info : List (String × String)
  first_seen : Option String
  last_seen : Option String
deriving DecidableEq, Repr

/-- In-memory `FaceDatabase` state.  `database` is the person-id-keyed dict
(insertion-ordered association list); `saveCount` counts the synchronous
`save_database()` full rewrites of the JSON file, so `saveCount` unchanged
means no durable write happened. -/
structure FaceDatabase where
  database : List (String × PersonRecord)
  saveCount : Nat
deriving DecidableEq, Repr

/-- Python truthiness test `not record.get("first_seen")` on an optional
string field: true for `None` and for the empty string. -/
def falsyStr : Option String → Bool
  | none => true
  | some s => s == ""

/-- Embedding of `FaceDatabase.add_person`: unconditionally (re)writes the record for
`person_id` with `first_seen`/`last_seen` reset to `None`, then saves. -/
def add_person (db : FaceDatabase) (person_id name category image_path crime : String)
    (additional_info : List (String × String)) : FaceDatabase :=
  let rec_ : PersonRecord :=
    { name := name, category := category, image_path := image_path,
      crime := crime, additional_info := additional_info,
      first_seen := none, last_seen := none }
  let db' :=
    if (db.database.lookup person_id).isSome then
      db.database.map (fun e => if e.1 == person_id then (e.1, rec_) else e)
    else
      db.database ++ [(person_id, rec_)]
  { database := db', saveCount := db.saveCount + 1 }

/-- Embedding of `FaceDatabase.update_last_seen`: only when `person_id` is a key of the
dict, set `first_seen` if it is still falsy, always set `last_seen`, and
save; otherwise do nothing at all (no mutation, no save). -/
def update_last_seen (db : FaceDatabase) (person_id timestamp : String) : FaceDatabase :=
  if (db.database.lookup person_id).isSome then
    { database :=
        db.database.map (fun e =>
          if e.1 == person_id then
            (e.1,
              { e.2 with
                first_seen := if falsyStr e.2.first_seen then some timestamp
                              else e.2.first_seen
                last_seen := some timestamp })
          else e)
      saveCount := db.saveCount + 1 }
  else db

/-- The face-database side effect of `backend/main.py::report`: when a truthy
`person_id` is supplied, update the last-seen bookkeeping of an existing
person, else (with a truthy `person_name`) create a fresh entry; Python
`or`-defaults for image and crime are reproduced. -/
def report (db : FaceDatabase) (person_id person_name person_image crime : Option String)
    (category : String) (timestamp : String) : FaceDatabase :=
  match person_id with
  | none => db
  | some pid =>
    if pid == "" then db
    else if (db.database.lookup pid).isSome then
      update_last_seen db pid timestamp
    else
      match person_name with
      | none => db
      | some nm =>
        if nm == "" then db
        else
          add_person db pid nm category
            (match person_image with
              | none => ""
              | some s => s)
            (match crime with
              | none => "Unknown"
              | some c => if c == "" then "Unknown" else c)
            []

/-! ## Broadcast fan-out (`WSManager.broadcast` in `backend/main.py`,
`backend/simulator.py`, `backend/test_backend.py` — all three identical) -/

/-- A WebSocket subscriber on the fan-out list; `sendOk` records whether
`ws.send_json` succeeds for it. -/
structure Subscriber where
  id : Nat
  sendOk : Bool
deriving DecidableEq, Repr

/-- The manager state: `self.active`. -/
structure WSManager where
  active : List Subscriber
deriving DecidableEq, Repr

/-- Embedding of `WSManager.broadcast(msg)`: iterate `self.active` in order, send to each
subscriber, swallowing any send failure (`except: pass`).  Returns the ids
that were actually delivered `msg` together with the manager state
afterwards.  Being a total function, it raises nothing. -/
def broadcast (mgr : WSManager) (msg : String) : List (Nat × String) × WSManager :=
  ((mgr.active.filter (fun s => s.sendOk)).map (fun s => (s.id, msg)), mgr)

/-! ## Replay pacing (`backend/simulation.py::SimulationReplay.replay_detections`) -/

/-- A `timeline.json` event. -/
structure TEvent where
  global_time : ℚ
  camera_id : String
  person_id : String
deriving DecidableEq, Repr, Inhabited

/-- The pacing loop of `replay_detections`: walk the timeline carrying
`previous_time`; before an event, sleep `(current - previous) / speed`
only when that is positive, and not at all for the first event.  Each
event is paired with the duration actually slept before it. -/
def replayAux (speed : ℚ) (prev : Option ℚ) : List TEvent → List (ℚ × TEvent)
  | [] => []
  | e :: rest =>
    let wait : ℚ := match prev with
      | none => 0
      | some p =>
        let w := (e.global_time - p) / speed
        if 0 < w then w else 0
    (wait, e) :: replayAux speed (some e.global_time) rest

/-- The `replay_detections(speed_multiplier)` pacing schedule over the loaded
timeline (the events in order, each with its pacing sleep). -/
def replaySchedule (timeline : List TEvent) (speed : ℚ) : List (ℚ × TEvent) :=
  replayAux speed none timeline

/-! ## Identity resolution (`helper.py`) -/

/-- A cosine distance as produced by the pipeline: a finite value from the
gallery, or Python's `float("inf")` sentinel. -/
inductive RDist where
  | fin : ℚ → RDist
  | inf
deriving DecidableEq, Repr

/-- One row returned by the LanceDB nearest-neighbour query
(selected columns `label` and `_distance`; either may be missing). -/
structure SearchResult where
  label : Option String
  distance : Option ℚ
deriving DecidableEq, Repr

/-- Python `label.split("-")[0]`: the characters before the first `'-'`
(the whole string when there is no dash). -/
def namePart (label : String) : String :=
  String.mk (label.data.takeWhile (fun c => c ≠ '-'))

/-- The per-row decision of `batch_vector_search`: defensive
`("Unknown", inf)` when a field is missing, else the name portion of the
label below the threshold and the `"Unknown"` sentinel at or above it,
always paired with the reported distance. -/
def decideIdentity (threshold : ℚ) (res : SearchResult) : String × RDist :=
  match res.label, res.distance with
  | some l, some d =>
    if d < threshold then (namePart l, RDist.fin d) else ("Unknown", RDist.fin d)
  | some _, none => ("Unknown", RDist.inf)
  | none, _ => ("Unknown", RDist.inf)

/-- The `embeddings` argument of `batch_vector_search`: `None`, a 1-D array
(single embedding), or a 2-D array / list of embeddings. -/
inductive EmbInput where
  | null
  | vec : List ℚ → EmbInput
  | mat : List (List ℚ) → EmbInput
deriving DecidableEq, Repr

/-- Python `len(embeddings)` for a non-`None` input. -/
def embLen : EmbInput → Nat
  | .null => 0
  | .vec v => v.length
  | .mat m => m.length

/-- The `np.ndim == 1` reshape `(1, -1)`: normalise the input to a matrix. -/
def toMat : EmbInput → List (List ℚ)
  | .null => []
  | .vec v => [v]
  | .mat m => m

/-- Python `emb_np.size` of the normalised matrix. -/
def matSize (m : List (List ℚ)) : Nat := (m.map List.length).sum

/-- Python `emb_np.shape[-1]` of the normalised (rectangular) matrix: the row
width, read off the first row. -/
def lastDim : List (List ℚ) → Nat
  | [] => 0
  | r :: _ => r.length

/-- Embedding of `helper.batch_vector_search(embeddings, threshold)`.  The LanceDB
nearest-neighbour call is the external capability `search`; `Except.error`
is a raised exception, which the code catches.  `None`/empty input and a
wrong last dimension return `[]` before `search` is ever consulted; a
search error also degrades to `[]`; otherwise every returned row is mapped
through `decideIdentity`.  Totality of the function is the no-exception
guarantee. -/
def batch_vector_search (search : List (List ℚ) → Except String (List SearchResult))
    (embeddings : EmbInput) (threshold : ℚ) : List (String × RDist) :=
  match embeddings with
  | .null => []
  | emb =>
    if embLen emb = 0 then []
    else
      let m := toMat emb
      if matSize m = 0 ∨ lastDim m ≠ 512 then []
      else
        match search m with
        | .error _ => []
        | .ok results => results.map (decideIdentity threshold)

/-- Embedding of `helper.find_best_match(face_table, face_embedding, threshold)`, given
the nearest neighbour `(label, distance)` the table reports: the raw label
below the threshold, the composite `"Uknown-Unknown"` sentinel otherwise.
(Never called anywhere in the repository; the pipeline resolves through
`batch_vector_search`.) -/
def find_best_match (nearest : String × ℚ) (threshold : ℚ) : String × ℚ :=
  if nearest.2 < threshold then nearest else ("Uknown-Unknown", nearest.2)

/-! ## Global detection merge (`offline_processor/merge_results.py::merge_results`
and `offline_processor/process_videos.py::main`) -/

/-- A per-camera detection record, with the three sort-key fields and the
payload fields the sort must carry along unchanged. -/
structure Det where
  timestamp : ℚ
  camera_id : String
  frame_id : Nat
  person_id : String
  category : String
  confidence : ℚ
deriving DecidableEq, Repr, Inhabited

/-- Code points of a Python string, for Python's lexicographic string
comparison. -/
def codes (s : String) : List Nat := s.data.map Char.toNat

/-- Strict lexicographic order on code-point lists (Python `str <`). -/
def natListLtb : List Nat → List Nat → Bool
  | [], [] => false
  | [], _ :: _ => true
  | _ :: _, [] => false
  | a :: as, b :: bs =>
    if a < b then true
    else if b < a then false
    else natListLtb as bs

/-- Python tuple comparison `key(a) <= key(b)` for the sort key
`(timestamp, camera_id, frame_id)` used by
`all_detections.sort(key=lambda x: (x["timestamp"], x["camera_id"], x["frame_id"]))`. -/
def detLe (a b : Det) : Bool :=
  if a.timestamp < b.timestamp then true
  else if b.timestamp < a.timestamp then false
  else if natListLtb (codes a.camera_id) (codes b.camera_id) then true
  else if natListLtb (codes b.camera_id) (codes a.camera_id) then false
  else a.frame_id ≤ b.frame_id

/-- Embedding of `merge_results`: concatenate the per-camera detection lists in file
order and sort by the key with Python's stable `list.sort`.  A stable sort
under a total preorder has a unique output, so the embedding uses the
stable `List.insertionSort`; being a pure function of its input it is
deterministic across runs. -/
def merge_results (cams : List (List Det)) : List Det :=
  cams.flatten.insertionSort (fun a b => detLe a b = true)

theorem natListLtb_irrefl (l : List Nat) : natListLtb l l = false := by
  induction l with
  | nil => rfl
  | cons a as ih => simp [natListLtb, ih]

theorem natListLtb_eq_of_not_lt :
    ∀ (a b : List Nat), natListLtb a b = false → natListLtb b a = false → a = b := by
  intro a
  induction a with
  | nil =>
    intro b h1 _
    cases b with
    | nil => rfl
    | cons y ys => simp [natListLtb] at h1
  | cons x xs ih =>
    intro b h1 h2
    cases b with
    | nil => simp [natListLtb] at h2
    | cons y ys =>
      by_cases hxy : x < y
      · simp [natListLtb, hxy] at h1
      · by_cases hyx : y < x
        · simp [natListLtb, hyx] at h2
        · have hx : x = y := by omega
          subst hx
          simp only [natListLtb, if_neg hxy, if_neg hyx] at h1 h2
          rw [ih ys h1 h2]

theorem natListLtb_trans :
    ∀ (a b c : List Nat), natListLtb a b = true → natListLtb b c = true →
      natListLtb a c = true := by
  intro a
  induction a with
  | nil =>
    intro b c h1 h2
    cases b with
    | nil => simp [natListLtb] at h1
    | cons y ys =>
      cases c with
      | nil => simp [natListLtb] at h2
      | cons z zs => simp [natListLtb]
  | cons x xs ih =>
    intro b c h1 h2
    cases b with
    | nil => simp [natListLtb] at h1
    | cons y ys =>
      cases c with
      | nil => simp [natListLtb] at h2
      | cons z zs =>
        by_cases hxy : x < y
        · by_cases hyz : y < z
          · have hxz : x < z := lt_trans hxy hyz
            simp [natListLtb, hxz]
          · by_cases hzy : z < y
            · simp [natListLtb, hyz, hzy] at h2
            · have hz : y = z := by omega
              subst hz
              simp [natListLtb, hxy]
        · by_cases hyx : y < x
          · simp [natListLtb, hxy, hyx] at h1
          · have hx : x = y := by omega
            subst hx
            simp only [natListLtb, if_neg hxy, if_neg hyx] at h1
            by_cases hxz : x < z
            · simp [natListLtb, hxz]
            · by_cases hzx : z < x
              · simp [natListLtb, hxz, hzx] at h2
              · have hz : x = z := by omega
                subst hz
                simp only [natListLtb, if_neg hxz, if_neg hzx] at h2 ⊢
                exact ih ys zs h1 h2

theorem detLe_iff (a b : Det) : detLe a b = true ↔
    a.timestamp < b.timestamp
    ∨ (a.timestamp = b.timestamp
        ∧ natListLtb (codes a.camera_id) (codes b.camera_id) = true)
    ∨ (a.timestamp = b.timestamp ∧ codes a.camera_id = codes b.camera_id
        ∧ a.frame_id ≤ b.frame_id) := by
  unfold detLe
  split_ifs with h1 h2 h3 h4
  · simp [h1]
  · constructor
    · intro h
      exact absurd h (by simp)
    · rintro (h | ⟨h, _⟩ | ⟨h, _⟩) <;> simp_all
  · have he : a.timestamp = b.timestamp := by linarith [le_of_not_lt h1, le_of_not_lt h2]
    simp [he, h3]
  · have he : a.timestamp = b.timestamp := by linarith [le_of_not_lt h1, le_of_not_lt h2]
    constructor
    · intro h
      exact absurd h (by simp)
    · rintro (h | ⟨_, h⟩ | ⟨_, h, _⟩)
      · exact absurd he (by intro he2; exact absurd h (by rw [he2]; exact lt_irrefl _))
      · exact absurd h (by simp [h3])
      · rw [h] at h4
        exact absurd h4 (by simp [natListLtb_irrefl])
  · have he : a.timestamp = b.timestamp := by linarith [le_of_not_lt h1, le_of_not_lt h2]
    have hc : codes a.camera_id = codes b.camera_id :=
      natListLtb_eq_of_not_lt _ _ (by simpa using h3) (by simpa using h4)
    simp [he, hc, h3, natListLtb_irrefl, decide_eq_true_iff]

theorem detLe_total (a b : Det) : detLe a b = true ∨ detLe b a = true := by
  rw [detLe_iff, detLe_iff]
  rcases lt_trichotomy a.timestamp b.timestamp with h | h | h
  · exact Or.inl (Or.inl h)
  · cases hc : natListLtb (codes a.camera_id) (codes b.camera_id) with
    | true => exact Or.inl (Or.inr (Or.inl ⟨h, rfl⟩))
    | false =>
      cases hc' : natListLtb (codes b.camera_id) (codes a.camera_id) with
      | true => exact Or.inr (Or.inr (Or.inl ⟨h.symm, rfl⟩))
      | false =>
        have heq := natListLtb_eq_of_not_lt _ _ hc hc'
        rcases Nat.le_total a.frame_id b.frame_id with hf | hf
        · exact Or.inl (Or.inr (Or.inr ⟨h, heq, hf⟩))
        · exact Or.inr (Or.inr (Or.inr ⟨h.symm, heq.symm, hf⟩))
  · exact Or.inr (Or.inl h)

theorem detLe_trans (a b c : Det) (hab : detLe a b = true) (hbc : detLe b c = true) :
    detLe a c = true := by
  rw [detLe_iff] at hab hbc ⊢
  rcases hab with h1 | ⟨h1, h1'⟩ | ⟨h1, h1', h1''⟩ <;>
    rcases hbc with h2 | ⟨h2, h2'⟩ | ⟨h2, h2', h2''⟩
  · exact Or.inl (lt_trans h1 h2)
  · exact Or.inl (h2 ▸ h1)
  · exact Or.inl (h2 ▸ h1)
  · exact Or.inl (h1 ▸ h2)
  · exact Or.inr (Or.inl ⟨h1.trans h2, natListLtb_trans _ _ _ h1' h2'⟩)
  · exact Or.inr (Or.inl ⟨h1.trans h2, h2' ▸ h1'⟩)
  · exact Or.inl (h1 ▸ h2)
  · exact Or.inr (Or.inl ⟨h1.trans h2, h1' ▸ h2'⟩)
  · exact Or.inr (Or.inr ⟨h1.trans h2, h1'.trans h2', h1''.trans h2''⟩)

/-! ## Track identity stabilizer (the vote-buffer logic of
`offline_preprocess.py::process_video`, lines 178-236) -/

/-- Helper `bestVote l cur rest`: scan `rest`, replacing the current candidate
only on a strictly greater multiplicity in `l`.  Starting from the head
of `l` this computes exactly `Counter(l).most_common(1)[0][0]`: the most
frequent value, ties resolved in favour of the value first encountered
in `l` (Python dicts iterate in first-insertion order and `sorted` is
stable). -/
def bestVote (l : List String) (cur : String) : List String → String
  | [] => cur
  | y :: ys => bestVote l (if l.count cur < l.count y then y else cur) ys

/-- Python `Counter(l).most_common(1)[0][0]` (none for an empty buffer, a case the
code never reaches because it appends before counting). -/
def mostCommon (l : List String) : Option String :=
  match l with
  | [] => none
  | x :: xs => some (bestVote (x :: xs) x xs)

/-- Python `l[-10:]`: the last (at most) ten elements. -/
def lastTen (l : List String) : List String := l.drop (l.length - 10)

/-- One confirmed-track iteration of the loop body for a given track:
append the newest label to the vote buffer
(`prediction_dict[track_id].append(name)`), emit the stabilized label when
the buffer has reached ten (`if len(...) >= 10: most_common(1)`), then
truncate the buffer to the last ten
(`prediction_dict[track_id] = prediction_dict[track_id][-10:]`).
Returns the post-step buffer and the emitted label. -/
def observe (buf : List String) (name : String) : List String × Option String :=
  let w := buf ++ [name]
  (lastTen w, if 10 ≤ w.length then mostCommon w else none)

/-- Trace record of one observation step: the vote window the emission was
evaluated on (the buffer with the newest label appended, before
truncation), the emitted stabilized label, and the buffer kept for the
next frame. -/
structure StabStep where
  window : List String
  emitted : Option String
  buffer : List String
deriving DecidableEq, Repr, Inhabited

/-- Run the stabilizer from buffer `buf` over the observations `obs`,
recording every step. -/
def stabStepsAux (buf : List String) : List String → List StabStep
  | [] => []
  | x :: xs =>
    let r := observe buf x
    { window := buf ++ [x], emitted := r.2, buffer := r.1 } :: stabStepsAux r.1 xs

/-- The stabilizer trace of a fresh track (`defaultdict(list)` starts the
buffer empty). -/
def stabSteps (obs : List String) : List StabStep := stabStepsAux [] obs

/-- Index of the first occurrence of `x` in `l` (length of `l` when
absent). -/
def firstIdx (l : List String) (x : String) : Nat :=
  match l with
  | [] => 0
  | y :: ys => if y = x then 0 else firstIdx ys x + 1

/-- The spec-side characterization of the stabilized label: a mode (most
frequent value) of the window `w`, ties broken in favour of the value
first encountered in `w`. -/
def isModeFirst (w : List String) (m : String) : Prop :=
  m ∈ w
  ∧ (∀ x ∈ w, w.count x ≤ w.count m)
  ∧ (∀ x ∈ w, w.count x = w.count m → firstIdx w m ≤ firstIdx w x)

theorem firstIdx_append_of_mem (front r : List String) (x : String) (h : x ∈ front) :
    firstIdx (front ++ r) x = firstIdx front x := by
  induction front with
  | nil => cases h
  | cons z zs ih =>
    by_cases hz : z = x
    · simp [firstIdx, hz]
    · have hx : x ∈ zs := by
        cases h with
        | head => exact absurd rfl hz
        | tail _ h => exact h
      simp [firstIdx, hz, ih hx]

theorem firstIdx_lt_length (front : List String) (x : String) (h : x ∈ front) :
    firstIdx front x < front.length := by
  induction front with
  | nil => cases h
  | cons z zs ih =>
    by_cases hz : z = x
    · simp [firstIdx, hz]
    · have hx : x ∈ zs := by
        cases h with
        | head => exact absurd rfl hz
        | tail _ h => exact h
      simp only [firstIdx, if_neg hz, List.length_cons]
      exact Nat.succ_lt_succ (ih hx)

theorem firstIdx_append_of_not_mem (front r : List String) (y : String) (h : y ∉ front) :
    firstIdx (front ++ y :: r) y = front.length := by
  induction front with
  | nil => simp [firstIdx]
  | cons z zs ih =>
    have hz : z ≠ y := by
      intro he
      exact h (he ▸ List.mem_cons_self z zs)
    have hy : y ∉ zs := fun hm => h (List.mem_cons_of_mem z hm)
    simp [firstIdx, hz, ih hy]

theorem bestVote_spec :
    ∀ (rest front l : List String) (cur : String),
      l = front ++ rest → cur ∈ front →
      (∀ x ∈ front, l.count x ≤ l.count cur) →
      (∀ x ∈ front, l.count x = l.count cur → firstIdx l cur ≤ firstIdx l x) →
      bestVote l cur rest ∈ l
      ∧ (∀ x ∈ l, l.count x ≤ l.count (bestVote l cur rest))
      ∧ (∀ x ∈ l, l.count x = l.count (bestVote l cur rest) →
          firstIdx l (bestVote l cur rest) ≤ firstIdx l x) := by
  intro rest
  induction rest with
  | nil =>
    intro front l cur hl hcur hmax htie
    have hlf : l = front := by simpa using hl
    subst hlf
    exact ⟨hcur, hmax, htie⟩
  | cons y ys ih =>
    intro front l cur hl hcur hmax htie
    have hl' : l = (front ++ [y]) ++ ys := by simp [hl]
    by_cases hlt : l.count cur < l.count y
    · have hg : bestVote l cur (y :: ys) = bestVote l y ys := by
        simp [bestVote, hlt]
      rw [hg]
      apply ih (front ++ [y]) l y hl' (by simp)
      · intro x hx
        rcases List.mem_append.1 hx with hx | hx
        · exact le_of_lt (lt_of_le_of_lt (hmax x hx) hlt)
        · simp only [List.mem_singleton] at hx
          exact hx ▸ le_refl _
      · intro x hx hcnt
        rcases List.mem_append.1 hx with hx | hx
        · exact absurd hcnt (by have := hmax x hx; omega)
        · simp only [List.mem_singleton] at hx
          exact hx ▸ le_refl _
    · have hg : bestVote l cur (y :: ys) = bestVote l cur ys := by
        simp [bestVote, hlt]
      rw [hg]
      apply ih (front ++ [y]) l cur hl' (List.mem_append_left _ hcur)
      · intro x hx
        rcases List.mem_append.1 hx with hx | hx
        · exact hmax x hx
        · simp only [List.mem_singleton] at hx
          exact hx ▸ le_of_not_lt hlt
      · intro x hx hcnt
        rcases List.mem_append.1 hx with hx | hx
        · exact htie x hx hcnt
        · simp only [List.mem_singleton] at hx
          subst hx
          by_cases hy : x ∈ front
          · exact htie x hy hcnt
          · have h1 : firstIdx l x = front.length := by
              rw [hl]
              exact firstIdx_append_of_not_mem front ys x hy
            have h2 : firstIdx l cur < front.length := by
              rw [hl, firstIdx_append_of_mem front (x :: ys) cur hcur]
              exact firstIdx_lt_length front cur hcur
            omega

theorem mostCommon_spec (l : List String) (h : l ≠ []) :
    ∃ m, mostCommon l = some m ∧ isModeFirst l m := by
  match l with
  | [] => exact absurd rfl h
  | x :: xs =>
    refine ⟨bestVote (x :: xs) x xs, rfl, ?_⟩
    have := bestVote_spec xs [x] (x :: xs) x rfl (by simp)
      (by intro z hz; simp only [List.mem_singleton] at hz; exact hz ▸ le_refl _)
      (by intro z hz hc; simp only [List.mem_singleton] at hz; exact hz ▸ le_refl _)
    exact this

theorem lastTen_length (l : List String) : (lastTen l).length = l.length - (l.length - 10) := by
  simp [lastTen]

theorem stabStepsAux_length (buf obs : List String) :
    (stabStepsAux buf obs).length = obs.length := by
  induction obs generalizing buf with
  | nil => rfl
  | cons x xs ih => simp [stabStepsAux, ih]

theorem stabStepsAux_spec (obs : List String) :
    ∀ (buf : List String), buf.length ≤ 10 →
      ∀ (i : Nat) (hi : i < (stabStepsAux buf obs).length),
        ((stabStepsAux buf obs).get ⟨i, hi⟩).window.length = min 10 (buf.length + i) + 1
        ∧ ((stabStepsAux buf obs).get ⟨i, hi⟩).window ≠ []
        ∧ ((stabStepsAux buf obs).get ⟨i, hi⟩).emitted
            = (if 10 ≤ ((stabStepsAux buf obs).get ⟨i, hi⟩).window.length
               then mostCommon ((stabStepsAux buf obs).get ⟨i, hi⟩).window else none)
        ∧ ((stabStepsAux buf obs).get ⟨i, hi⟩).buffer.length ≤ 10 := by
  induction obs with
  | nil =>
    intro buf _ i hi
    simp [stabStepsAux] at hi
  | cons x xs ih =>
    intro buf hb i hi
    have hbuf' : (observe buf x).1.length ≤ 10 := by
      simp only [observe, lastTen_length]
      omega
    match i with
    | 0 =>
      refine ⟨?_, ?_, ?_, ?_⟩
      · show (buf ++ [x]).length = min 10 (buf.length + 0) + 1
        simp only [List.length_append, List.length_cons, List.length_nil]
        omega
      · show buf ++ [x] ≠ []
        simp
      · show (observe buf x).2 = _
        rfl
      · show (observe buf x).1.length ≤ 10
        exact hbuf'
    | j + 1 =>
      have hj : j < (stabStepsAux (observe buf x).1 xs).length := by
        simp only [stabStepsAux, List.length_cons] at hi
        simpa using Nat.lt_of_succ_lt_succ hi
      have := ih (observe buf x).1 hbuf' j hj
      have hlen : (observe buf x).1.length = min 10 (buf.length + 1) := by
        simp only [observe, lastTen_length, List.length_append, List.length_cons,
          List.length_nil]
        omega
      have hmin : min 10 ((observe buf x).1.length + j) = min 10 (buf.length + (j + 1)) := by
        rw [hlen]
        omega
      refine ⟨?_, this.2.1, this.2.2.1, this.2.2.2⟩
      rw [show ((stabStepsAux buf (x :: xs)).get ⟨j + 1, hi⟩)
            = ((stabStepsAux (observe buf x).1 xs).get ⟨j, hj⟩) from rfl]
      rw [this.1, hmin]

theorem stabSteps_getD (obs : List String) (i : Nat) (hlen : i < (stabSteps obs).length) :
    (stabSteps obs).getD i default = (stabSteps obs).get ⟨i, hlen⟩ := by
  rw [List.getD_eq_getElem _ _ hlen]
  simp

theorem stabSteps_spec (obs : List String) (i : Nat) (hi : i < (stabSteps obs).length) :
    ((stabSteps obs).get ⟨i, hi⟩).window.length = min 10 (0 + i) + 1
    ∧ ((stabSteps obs).get ⟨i, hi⟩).window ≠ []
    ∧ ((stabSteps obs).get ⟨i, hi⟩).emitted
        = (if 10 ≤ ((stabSteps obs).get ⟨i, hi⟩).window.length
           then mostCommon ((stabSteps obs).get ⟨i, hi⟩).window else none)
    ∧ ((stabSteps obs).get ⟨i, hi⟩).buffer.length ≤ 10 := by
  have h := stabStepsAux_spec obs [] (by simp) i hi
  simpa using h

/-- C1: a track fed fewer than 10 identity observations emits no stabilized
label; from the 10th observation on, every observation emits a stabilized
label, and that label is the mode of the vote window the code evaluates
(the buffer with the newest observation appended), ties broken in favour
of the label first encountered in the window. -/
theorem stabilizer_confirmation (obs : List String) (i : Nat) (hi : i < obs.length) :
    (i + 1 < 10 → ((stabSteps obs).getD i default).emitted = none)
    ∧ (10 ≤ i + 1 → ∃ m, ((stabSteps obs).getD i default).emitted = some m
        ∧ isModeFirst ((stabSteps obs).getD i default).window m) := by
  have hlen : i < (stabSteps obs).length := by
    rw [stabSteps, stabStepsAux_length]
    exact hi
  have hgd := stabSteps_getD obs i hlen
  obtain ⟨hw, hne, hem, _⟩ := stabSteps_spec obs i hlen
  have hw' : ((stabSteps obs).get ⟨i, hlen⟩).window.length = min 10 i + 1 := by
    simpa using hw
  constructor
  · intro h10
    rw [hgd, hem, if_neg]
    rw [hw']
    omega
  · intro h10
    obtain ⟨m, hm, hmode⟩ := mostCommon_spec _ hne
    refine ⟨m, ?_, ?_⟩
    · rw [hgd, hem, if_pos (by rw [hw']; omega), hm]
    · rw [hgd]
      exact hmode

/-- C1 witness: eleven observations; at the eleventh step (index 10) a
stabilized label is emitted and it is the first-encountered mode of the
window. -/
theorem stabilizer_confirmation_witness :
    10 < (["b", "a", "a", "b", "b", "a", "a", "a", "b", "b", "a"] : List String).length
    ∧ ((10 + 1 < 10 →
          ((stabSteps ["b", "a", "a", "b", "b", "a", "a", "a", "b", "b", "a"]).getD 10
              default).emitted = none)
        ∧ (10 ≤ 10 + 1 →
            ∃ m, ((stabSteps ["b", "a", "a", "b", "b", "a", "a", "a", "b", "b", "a"]).getD 10
                default).emitted = some m
              ∧ isModeFirst
                  ((stabSteps ["b", "a", "a", "b", "b", "a", "a", "a", "b", "b", "a"]).getD 10
                    default).window m)) :=
  ⟨by decide,
    stabilizer_confirmation ["b", "a", "a", "b", "b", "a", "a", "a", "b", "b", "a"] 10
      (by decide)⟩

/-- C7: across a whole run the vote buffer held between observations never
exceeds ten labels, and feeding an observation to a buffer that already
holds ten evicts exactly the oldest entry (sliding window). -/
theorem vote_buffer_bound (obs : List String) :
    (∀ (i : Nat), i < obs.length → ((stabSteps obs).getD i default).buffer.length ≤ 10)
    ∧ (∀ (buf : List String) (x : String), buf.length = 10 →
        (observe buf x).1 = buf.tail ++ [x]) := by
  constructor
  · intro i hi
    have hlen : i < (stabSteps obs).length := by
      rw [stabSteps, stabStepsAux_length]
      exact hi
    rw [stabSteps_getD obs i hlen]
    exact (stabSteps_spec obs i hlen).2.2.2
  · intro buf x hbuf
    cases buf with
    | nil => simp at hbuf
    | cons b bs =>
      have h1 : ((b :: bs) ++ [x]).length - 10 = 1 := by
        simp only [List.length_append, List.length_cons, List.length_nil] at hbuf ⊢
        omega
      show lastTen ((b :: bs) ++ [x]) = (b :: bs).tail ++ [x]
      rw [lastTen, h1]
      rfl

/-- C7 witness: a run of twelve observations, instantiating both the
reachable-state bound and the eviction equation. -/
theorem vote_buffer_bound_witness :
    (∀ (i : Nat),
        i < (["a", "b", "a", "a", "b", "a", "b", "b", "a", "a", "b", "a"] : List String).length →
          ((stabSteps ["a", "b", "a", "a", "b", "a", "b", "b", "a", "a", "b", "a"]).getD i
              default).buffer.length ≤ 10)
    ∧ (∀ (buf : List String) (x : String), buf.length = 10 →
        (observe buf x).1 = buf.tail ++ [x]) :=
  vote_buffer_bound ["a", "b", "a", "a", "b", "a", "b", "b", "a", "a", "b", "a"]

/-- C3: person-id assignment reuses the stored id for an already-seen name
(state untouched); a never-seen name is allocated the next zero-padded
number of its category's namespace; in particular three distinct new
category-B names get CRIM_001, CRIM_002, CRIM_003 and re-reporting the
first yields CRIM_001 again with no new allocation. -/
theorem person_id_assignment (st st2 : PersonIdState) (name name2 : String)
    (cat : Category) (pid : String) (n1 n2 n3 : String)
    (hsome : st.nameMap.lookup name = some pid)
    (hnone : st2.nameMap.lookup name2 = none)
    (h12 : n1 ≠ n2) (h13 : n1 ≠ n3) (h23 : n2 ≠ n3) :
    get_person_id st name cat = (pid, st)
    ∧ (get_person_id st2 name2 .B).1 = "CRIM_" ++ pad3 st2.counterB
    ∧ (get_person_id st2 name2 .B).2.counterB = st2.counterB + 1
    ∧ (get_person_id st2 name2 .A).1 = "POLICE_" ++ pad3 st2.counterA
    ∧ (get_person_id st2 name2 .A).2.counterA = st2.counterA + 1
    ∧ (get_person_id initPersonIdState n1 .B).1 = "CRIM_001"
    ∧ (get_person_id (get_person_id initPersonIdState n1 .B).2 n2 .B).1 = "CRIM_002"
    ∧ (get_person_id (get_person_id (get_person_id initPersonIdState n1 .B).2 n2 .B).2
          n3 .B).1 = "CRIM_003"
    ∧ get_person_id
          (get_person_id (get_person_id (get_person_id initPersonIdState n1 .B).2 n2 .B).2
            n3 .B).2 n1 .B
        = ("CRIM_001",
            (get_person_id (get_person_id (get_person_id initPersonIdState n1 .B).2 n2 .B).2
              n3 .B).2) := by
  have p1 : ("CRIM_" ++ pad3 1 : String) = "CRIM_001" := by decide
  have p2 : ("CRIM_" ++ pad3 2 : String) = "CRIM_002" := by decide
  have p3 : ("CRIM_" ++ pad3 3 : String) = "CRIM_003" := by decide
  have b21 : (n2 == n1) = false := beq_eq_false_iff_ne.mpr h12.symm
  have b31 : (n3 == n1) = false := beq_eq_false_iff_ne.mpr h13.symm
  have b32 : (n3 == n2) = false := beq_eq_false_iff_ne.mpr h23.symm
  have s1 : get_person_id initPersonIdState n1 .B
      = ("CRIM_001", { counterA := 1, counterB := 2, nameMap := [(n1, "CRIM_001")] }) := by
    simp [get_person_id, initPersonIdState, p1]
  have s2 : get_person_id (get_person_id initPersonIdState n1 .B).2 n2 .B
      = ("CRIM_002",
          { counterA := 1, counterB := 3,
            nameMap := [(n1, "CRIM_001"), (n2, "CRIM_002")] }) := by
    rw [s1]
    simp [get_person_id, List.lookup, b21, p2]
  have s3 : get_person_id (get_person_id (get_person_id initPersonIdState n1 .B).2 n2 .B).2
        n3 .B
      = ("CRIM_003",
          { counterA := 1, counterB := 4,
            nameMap := [(n1, "CRIM_001"), (n2, "CRIM_002"), (n3, "CRIM_003")] }) := by
    rw [s2]
    simp [get_person_id, List.lookup, b31, b32, p3]
  refine ⟨?_, ?_, ?_, ?_, ?_, ?_, ?_, ?_, ?_⟩
  · unfold get_person_id
    rw [hsome]
  · unfold get_person_id
    rw [hnone]
    simp
  · unfold get_person_id
    rw [hnone]
  · unfold get_person_id
    rw [hnone]
    simp
  · unfold get_person_id
    rw [hnone]
  · rw [s1]
  · rw [s2]
  · rw [s3]
  · rw [s3]
    simp [get_person_id, List.lookup]

/-- C3 witness: three concrete distinct names and a concrete state for the
reuse and fresh-allocation parts. -/
theorem person_id_assignment_witness :
    ((PersonIdState.mk 1 2 [("ayush", "CRIM_001")]).nameMap.lookup "ayush"
        = some "CRIM_001")
    ∧ ((PersonIdState.mk 1 2 [("ayush", "CRIM_001")]).nameMap.lookup "meera" = none)
    ∧ ("ayush" : String) ≠ "vikram" ∧ ("ayush" : String) ≠ "rahul"
    ∧ ("vikram" : String) ≠ "rahul"
    ∧ (get_person_id (PersonIdState.mk 1 2 [("ayush", "CRIM_001")]) "ayush" .B
          = ("CRIM_001", PersonIdState.mk 1 2 [("ayush", "CRIM_001")])
        ∧ (get_person_id (PersonIdState.mk 1 2 [("ayush", "CRIM_001")]) "meera" .B).1
            = "CRIM_" ++ pad3 (PersonIdState.mk 1 2 [("ayush", "CRIM_001")]).counterB
        ∧ (get_person_id (PersonIdState.mk 1 2 [("ayush", "CRIM_001")]) "meera" .B).2.counterB
            = (PersonIdState.mk 1 2 [("ayush", "CRIM_001")]).counterB + 1
        ∧ (get_person_id (PersonIdState.mk 1 2 [("ayush", "CRIM_001")]) "meera" .A).1
            = "POLICE_" ++ pad3 (PersonIdState.mk 1 2 [("ayush", "CRIM_001")]).counterA
        ∧ (get_person_id (PersonIdState.mk 1 2 [("ayush", "CRIM_001")]) "meera" .A).2.counterA
            = (PersonIdState.mk 1 2 [("ayush", "CRIM_001")]).counterA + 1
        ∧ (get_person_id initPersonIdState "ayush" .B).1 = "CRIM_001"
        ∧ (get_person_id (get_person_id initPersonIdState "ayush" .B).2 "vikram" .B).1
            = "CRIM_002"
        ∧ (get_person_id
              (get_person_id (get_person_id initPersonIdState "ayush" .B).2 "vikram" .B).2
              "rahul" .B).1 = "CRIM_003"
        ∧ get_person_id
              (get_person_id
                (get_person_id (get_person_id initPersonIdState "ayush" .B).2 "vikram" .B).2
                "rahul" .B).2 "ayush" .B
            = ("CRIM_001",
                (get_person_id
                  (get_person_id (get_person_id initPersonIdState "ayush" .B).2 "vikram" .B).2
                  "rahul" .B).2)) :=
  ⟨by decide, by decide, by decide, by decide, by decide,
    person_id_assignment (PersonIdState.mk 1 2 [("ayush", "CRIM_001")])
      (PersonIdState.mk 1 2 [("ayush", "CRIM_001")]) "ayush" "meera" .B "CRIM_001"
      "ayush" "vikram" "rahul" (by decide) (by decide) (by decide) (by decide) (by decide)⟩

theorem lookup_map_entry (f : PersonRecord → PersonRecord) :
    ∀ (l : List (String × PersonRecord)) (pid : String) (r : PersonRecord),
      l.lookup pid = some r →
      (l.map (fun e => if e.1 == pid then (e.1, f e.2) else e)).lookup pid = some (f r) := by
  intro l
  induction l with
  | nil =>
    intro pid r hr
    simp at hr
  | cons e es ih =>
    intro pid r hr
    obtain ⟨k, v⟩ := e
    simp only [List.map_cons]
    by_cases hk : pid = k
    · have hb : (pid == k) = true := beq_iff_eq.mpr hk
      have hb' : (k == pid) = true := beq_iff_eq.mpr hk.symm
      rw [if_pos hb']
      simp only [List.lookup, hb] at hr ⊢
      cases hr
      rfl
    · have hb : (pid == k) = false := beq_eq_false_iff_ne.mpr hk
      have hb' : (k == pid) = false := beq_eq_false_iff_ne.mpr (Ne.symm hk)
      rw [if_neg (by simp [hb'])]
      simp only [List.lookup, hb] at hr ⊢
      exact ih pid r hr

theorem update_last_seen_lookup (db : FaceDatabase) (pid ts : String) (r : PersonRecord)
    (hr : db.database.lookup pid = some r) :
    (update_last_seen db pid ts).database.lookup pid
      = some { r with
          first_seen := if falsyStr r.first_seen then some ts else r.first_seen
          last_seen := some ts } := by
  unfold update_last_seen
  rw [hr]
  simp only [Option.isSome_some, if_true]
  exact lookup_map_entry
    (fun rec_ => { rec_ with
      first_seen := if falsyStr rec_.first_seen then some ts else rec_.first_seen
      last_seen := some ts })
    db.database pid r hr

/-- C4: for a person present in the database, every `report` sighting sets
`last_seen` to the sighting's timestamp; `first_seen` is set by the first
such update only, so two updates at T1 then T2 leave
`first_seen = T1`, `last_seen = T2`, and every other field untouched. -/
theorem first_seen_immutable (db : FaceDatabase) (pid : String) (r : PersonRecord)
    (pname pimg pcrime : Option String) (cat T1 T2 : String)
    (hpid : pid ≠ "") (hr : db.database.lookup pid = some r)
    (hfs : r.first_seen = none) (hT1 : T1 ≠ "") :
    (report db (some pid) pname pimg pcrime cat T1).database.lookup pid
        = some { r with first_seen := some T1, last_seen := some T1 }
    ∧ (report (report db (some pid) pname pimg pcrime cat T1) (some pid) pname pimg pcrime
          cat T2).database.lookup pid
        = some { r with first_seen := some T1, last_seen := some T2 } := by
  have hb : (pid == "") = false := beq_eq_false_iff_ne.mpr hpid
  have step1 : report db (some pid) pname pimg pcrime cat T1 = update_last_seen db pid T1 := by
    simp [report, hb, hr]
  have upd1 : (update_last_seen db pid T1).database.lookup pid
      = some { r with first_seen := some T1, last_seen := some T1 } := by
    rw [update_last_seen_lookup db pid T1 r hr, hfs]
    rfl
  have step2 : report (update_last_seen db pid T1) (some pid) pname pimg pcrime cat T2
      = update_last_seen (update_last_seen db pid T1) pid T2 := by
    simp [report, hb, upd1]
  have hT1f : falsyStr (some T1) = false := by
    simp [falsyStr, hT1]
  have upd2 : (update_last_seen (update_last_seen db pid T1) pid T2).database.lookup pid
      = some { r with first_seen := some T1, last_seen := some T2 } := by
    rw [update_last_seen_lookup (update_last_seen db pid T1) pid T2 _ upd1]
    simp [hT1f]
  exact ⟨step1 ▸ upd1, by rw [step1, step2]; exact upd2⟩

/-- C4 witness: a concrete one-person database updated at T1 then T2. -/
theorem first_seen_immutable_witness :
    ("CRIM_001" : String) ≠ ""
    ∧ ((FaceDatabase.mk
          [("CRIM_001", PersonRecord.mk "ayush" "B" "img.jpg" "Unknown" [] none none)]
          1).database.lookup "CRIM_001"
        = some (PersonRecord.mk "ayush" "B" "img.jpg" "Unknown" [] none none))
    ∧ (PersonRecord.mk "ayush" "B" "img.jpg" "Unknown" [] none none).first_seen = none
    ∧ ("2024-01-01T10:00:00" : String) ≠ ""
    ∧ ((report
          (FaceDatabase.mk
            [("CRIM_001", PersonRecord.mk "ayush" "B" "img.jpg" "Unknown" [] none none)] 1)
          (some "CRIM_001") (some "ayush") none none "B"
          "2024-01-01T10:00:00").database.lookup "CRIM_001"
          = some { PersonRecord.mk "ayush" "B" "img.jpg" "Unknown" [] none none with
              first_seen := some "2024-01-01T10:00:00",
              last_seen := some "2024-01-01T10:00:00" }
        ∧ (report
            (report
              (FaceDatabase.mk
                [("CRIM_001", PersonRecord.mk "ayush" "B" "img.jpg" "Unknown" [] none none)] 1)
              (some "CRIM_001") (some "ayush") none none "B" "2024-01-01T10:00:00")
            (some "CRIM_001") (some "ayush") none none "B"
            "2024-01-01T10:00:10").database.lookup "CRIM_001"
          = some { PersonRecord.mk "ayush" "B" "img.jpg" "Unknown" [] none none with
              first_seen := some "2024-01-01T10:00:00",
              last_seen := some "2024-01-01T10:00:10" }) :=
  ⟨by decide, by decide, by decide, by decide,
    first_seen_immutable
      (FaceDatabase.mk
        [("CRIM_001", PersonRecord.mk "ayush" "B" "img.jpg" "Unknown" [] none none)] 1)
      "CRIM_001" (PersonRecord.mk "ayush" "B" "img.jpg" "Unknown" [] none none)
      (some "ayush") none none "B" "2024-01-01T10:00:00" "2024-01-01T10:00:10"
      (by decide) (by decide) (by decide) (by decide)⟩

/-- C10: `update_last_seen` for an unknown person id is a complete no-op:
the returned state equals the input state (same in-memory dict, same
save counter, hence no persisted write), and being a total function it
raises nothing. -/
theorem update_last_seen_missing_noop (db : FaceDatabase) (pid ts : String)
    (h : db.database.lookup pid = none) :
    update_last_seen db pid ts = db := by
  simp [update_last_seen, h]

/-- C10 witness: updating a person id that is absent from a concrete
database leaves the database value unchanged. -/
theorem update_last_seen_missing_noop_witness :
    ((FaceDatabase.mk
        [("CRIM_001", PersonRecord.mk "ayush" "B" "img.jpg" "Unknown" [] none none)]
        7).database.lookup "CRIM_999" = none)
    ∧ update_last_seen
        (FaceDatabase.mk
          [("CRIM_001", PersonRecord.mk "ayush" "B" "img.jpg" "Unknown" [] none none)] 7)
        "CRIM_999" "2024-01-01T10:00:00"
      = FaceDatabase.mk
          [("CRIM_001", PersonRecord.mk "ayush" "B" "img.jpg" "Unknown" [] none none)] 7 :=
  ⟨by decide,
    update_last_seen_missing_noop
      (FaceDatabase.mk
        [("CRIM_001", PersonRecord.mk "ayush" "B" "img.jpg" "Unknown" [] none none)] 7)
      "CRIM_999" "2024-01-01T10:00:00" (by decide)⟩

/-- C8 counterexample: with a failing subscriber first on the list, the
broadcast still delivers to the healthy subscriber and raises nothing,
but — contrary to the claim — the failing subscriber is NOT removed from
the fan-out list: the list after the broadcast still contains it. -/
theorem broadcast_keeps_failed_subscriber :
    (broadcast (WSManager.mk [Subscriber.mk 0 false, Subscriber.mk 1 true]) "alert").1
        = [(1, "alert")]
    ∧ (broadcast (WSManager.mk [Subscriber.mk 0 false, Subscriber.mk 1 true]) "alert").2.active
        = [Subscriber.mk 0 false, Subscriber.mk 1 true]
    ∧ Subscriber.mk 0 false
        ∈ (broadcast (WSManager.mk [Subscriber.mk 0 false, Subscriber.mk 1 true])
            "alert").2.active := by
  decide

/-- C8 (amended): a failed send aborts nothing — every subscriber whose
send succeeds is still delivered the message and the broadcast raises no
error (total function) — but the failing subscriber is not removed: the
fan-out list is returned unchanged, so the subscriber is retried on every
subsequent broadcast (removal happens only through the websocket
endpoint's disconnect path). -/
theorem broadcast_error_isolation (mgr : WSManager) (msg : String) :
    (broadcast mgr msg).1
        = (mgr.active.filter (fun s => s.sendOk)).map (fun s => (s.id, msg))
    ∧ (∀ s, s ∈ mgr.active → s.sendOk = true → (s.id, msg) ∈ (broadcast mgr msg).1)
    ∧ (broadcast mgr msg).2 = mgr := by
  refine ⟨rfl, ?_, rfl⟩
  intro s hs hok
  simp only [broadcast, List.mem_map, List.mem_filter]
  exact ⟨s, ⟨hs, hok⟩, rfl⟩

/-- C8 witness: the amended property instantiated on a concrete fan-out
list containing one failing and one healthy subscriber. -/
theorem broadcast_error_isolation_witness :
    (broadcast (WSManager.mk [Subscriber.mk 2 false, Subscriber.mk 3 true]) "msg").1
        = ((WSManager.mk [Subscriber.mk 2 false, Subscriber.mk 3 true]).active.filter
            (fun s => s.sendOk)).map (fun s => (s.id, "msg"))
    ∧ (∀ s, s ∈ (WSManager.mk [Subscriber.mk 2 false, Subscriber.mk 3 true]).active →
        s.sendOk = true →
          (s.id, "msg")
            ∈ (broadcast (WSManager.mk [Subscriber.mk 2 false, Subscriber.mk 3 true])
                "msg").1)
    ∧ (broadcast (WSManager.mk [Subscriber.mk 2 false, Subscriber.mk 3 true]) "msg").2
        = WSManager.mk [Subscriber.mk 2 false, Subscriber.mk 3 true] :=
  broadcast_error_isolation (WSManager.mk [Subscriber.mk 2 false, Subscriber.mk 3 true]) "msg"

theorem replayAux_map_snd (s : ℚ) :
    ∀ (tl : List TEvent) (prev : Option ℚ), (replayAux s prev tl).map Prod.snd = tl := by
  intro tl
  induction tl with
  | nil => intro prev; rfl
  | cons e rest ih =>
    intro prev
    simp [replayAux, ih]

theorem replayAux_wait (s : ℚ) :
    ∀ (tl : List TEvent) (prev : Option ℚ) (i : Nat), i + 1 < tl.length →
      ((replayAux s prev tl).getD (i + 1) default).1 =
        (if 0 < ((tl.getD (i + 1) default).global_time
              - (tl.getD i default).global_time) / s
         then ((tl.getD (i + 1) default).global_time
              - (tl.getD i default).global_time) / s
         else 0) := by
  intro tl
  induction tl with
  | nil =>
    intro prev i h
    simp at h
  | cons e rest ih =>
    intro prev i h
    match i with
    | 0 =>
      cases rest with
      | nil => simp at h
      | cons e1 rest' =>
        simp [replayAux]
    | j + 1 =>
      have h' : j + 1 < rest.length := by
        simpa using Nat.lt_of_succ_lt_succ h
      simp only [replayAux, List.getD_cons_succ]
      exact ih (some e.global_time) j h'

/-- C9: the replay pacing loop processes the timeline in order, sleeps
nothing before the first event, and before each later event sleeps exactly
`(current.global_time - previous.global_time) / speed_multiplier`, skipped
entirely (clamped to zero) when that quantity is not positive. -/
theorem replay_pacing (tl : List TEvent) (s : ℚ) (hs : 0 < s) :
    (replaySchedule tl s).map Prod.snd = tl
    ∧ (0 < tl.length → ((replaySchedule tl s).getD 0 default).1 = 0)
    ∧ (∀ i : Nat, i + 1 < tl.length →
        ((replaySchedule tl s).getD (i + 1) default).1 =
          (if 0 < ((tl.getD (i + 1) default).global_time
                - (tl.getD i default).global_time) / s
           then ((tl.getD (i + 1) default).global_time
                - (tl.getD i default).global_time) / s
           else 0)) := by
  refine ⟨replayAux_map_snd s tl none, ?_, ?_⟩
  · intro hpos
    cases tl with
    | nil => simp at hpos
    | cons e rest => simp [replaySchedule, replayAux]
  · intro i hi
    exact replayAux_wait s tl none i hi

/-- The concrete three-event timeline of the C9 example (global times
0, 2, 5). -/
def exampleTimeline : List TEvent :=
  [TEvent.mk 0 "cam_01" "CRIM_001", TEvent.mk 2 "cam_01" "CRIM_001",
    TEvent.mk 5 "cam_01" "CRIM_001"]

/-- C9 witness: the timeline at global times 0, 2, 5 replayed at speed 2.0
sleeps nothing before the first event and exactly 1.0 then 1.5 seconds
before the second and third. -/
theorem replay_pacing_witness :
    (0 : ℚ) < 2
    ∧ ((replaySchedule exampleTimeline 2).getD 1 default).1 = 1
    ∧ ((replaySchedule exampleTimeline 2).getD 2 default).1 = 3 / 2
    ∧ ((replaySchedule exampleTimeline 2).map Prod.snd = exampleTimeline
        ∧ (0 < exampleTimeline.length →
            ((replaySchedule exampleTimeline 2).getD 0 default).1 = 0)
        ∧ (∀ i : Nat, i + 1 < exampleTimeline.length →
            ((replaySchedule exampleTimeline 2).getD (i + 1) default).1 =
              (if 0 < ((exampleTimeline.getD (i + 1) default).global_time
                    - (exampleTimeline.getD i default).global_time) / 2
               then ((exampleTimeline.getD (i + 1) default).global_time
                    - (exampleTimeline.getD i default).global_time) / 2
               else 0))) :=
  ⟨by decide, by norm_num [replaySchedule, replayAux, exampleTimeline],
    by norm_num [replaySchedule, replayAux, exampleTimeline],
    replay_pacing exampleTimeline 2 (by decide)⟩

/-- C2: on a well-formed batch of 512-dimensional queries whose gallery
search succeeds, resolution maps every query's nearest neighbour through
the threshold rule: distance strictly below the threshold yields the name
portion of the label (the part before the first `-`) with that distance;
distance at or above the threshold (equality included) yields the
`"Unknown"` sentinel. -/
theorem resolver_threshold (search : List (List ℚ) → Except String (List SearchResult))
    (rows : List (List ℚ)) (results : List SearchResult) (t : ℚ)
    (hne : rows ≠ []) (hdim : ∀ v ∈ rows, v.length = 512)
    (hok : search rows = Except.ok results) :
    batch_vector_search search (EmbInput.mat rows) t = results.map (decideIdentity t)
    ∧ (∀ l d, d < t →
        decideIdentity t (SearchResult.mk (some l) (some d)) = (namePart l, RDist.fin d))
    ∧ (∀ l d, t ≤ d →
        decideIdentity t (SearchResult.mk (some l) (some d)) = ("Unknown", RDist.fin d)) := by
  refine ⟨?_, ?_, ?_⟩
  · match rows, hne with
    | v :: rest, _ =>
      have hv : v.length = 512 := hdim v (List.mem_cons_self v rest)
      have hlen : embLen (EmbInput.mat (v :: rest)) ≠ 0 := by
        simp [embLen]
      have hguard : ¬ (matSize (toMat (EmbInput.mat (v :: rest))) = 0
          ∨ lastDim (toMat (EmbInput.mat (v :: rest))) ≠ 512) := by
        simp only [toMat, matSize, lastDim, List.map_cons, List.sum_cons]
        push_neg
        constructor
        · omega
        · exact hv
      simp only [batch_vector_search, if_neg hlen, if_neg hguard]
      rw [show toMat (EmbInput.mat (v :: rest)) = v :: rest from rfl, hok]
  · intro l d hlt
    simp [decideIdentity, hlt]
  · intro l d hge
    simp [decideIdentity, not_lt.mpr hge]

/-- C2 witness: one valid 512-dimensional query, a gallery whose nearest
neighbour is the composite label `"ayush-1"` at distance 1 with threshold
2: the resolver returns `("ayush", 1)`; at distance exactly equal to the
threshold it returns `"Unknown"`. -/
theorem resolver_threshold_witness :
    (([List.replicate 512 (0 : ℚ)] : List (List ℚ)) ≠ [])
    ∧ (∀ v ∈ ([List.replicate 512 (0 : ℚ)] : List (List ℚ)), v.length = 512)
    ∧ ((fun _ : List (List ℚ) =>
          (Except.ok [SearchResult.mk (some "ayush-1") (some 1)]
            : Except String (List SearchResult)))
            [List.replicate 512 (0 : ℚ)]
        = Except.ok [SearchResult.mk (some "ayush-1") (some 1)])
    ∧ decideIdentity 2 (SearchResult.mk (some "ayush-1") (some 1))
        = ("ayush", RDist.fin 1)
    ∧ decideIdentity 2 (SearchResult.mk (some "bob-2") (some 2))
        = ("Unknown", RDist.fin 2)
    ∧ (batch_vector_search
          (fun _ : List (List ℚ) =>
            (Except.ok [SearchResult.mk (some "ayush-1") (some 1)]
              : Except String (List SearchResult)))
          (EmbInput.mat [List.replicate 512 (0 : ℚ)]) 2
          = [SearchResult.mk (some "ayush-1") (some 1)].map (decideIdentity 2)
        ∧ (∀ l d, d < 2 →
            decideIdentity 2 (SearchResult.mk (some l) (some d))
              = (namePart l, RDist.fin d))
        ∧ (∀ l d, 2 ≤ d →
            decideIdentity 2 (SearchResult.mk (some l) (some d))
              = ("Unknown", RDist.fin d))) :=
  ⟨List.cons_ne_nil _ _,
    by
      intro v hv
      simp only [List.mem_singleton] at hv
      subst hv
      exact List.length_replicate 512 0,
    rfl, by decide, by decide,
    resolver_threshold
      (fun _ => (Except.ok [SearchResult.mk (some "ayush-1") (some 1)]
        : Except String (List SearchResult)))
      [List.replicate 512 (0 : ℚ)] [SearchResult.mk (some "ayush-1") (some 1)]
      2 (List.cons_ne_nil _ _)
      (by
        intro v hv
        simp only [List.mem_singleton] at hv
        subst hv
        exact List.length_replicate 512 0)
      rfl⟩

/-- C6 counterexample: a malformed (3-dimensional) query makes
`batch_vector_search` return the empty list — not the claimed per-query
`("Unknown", +infinity)` pair. -/
theorem resolver_malformed_empty :
    batch_vector_search
        (fun _ => (Except.ok [SearchResult.mk (some "ayush") (some 0)]
          : Except String (List SearchResult)))
        (EmbInput.vec [0, 0, 0]) 2 = []
    ∧ batch_vector_search
        (fun _ => (Except.ok [SearchResult.mk (some "ayush") (some 0)]
          : Except String (List SearchResult)))
        (EmbInput.vec [0, 0, 0]) 2 ≠ [("Unknown", RDist.inf)] := by
  have h0 : batch_vector_search
      (fun _ => (Except.ok [SearchResult.mk (some "ayush") (some 0)]
        : Except String (List SearchResult)))
      (EmbInput.vec [0, 0, 0]) 2 = [] := rfl
  refine ⟨h0, ?_⟩
  rw [h0]
  simp

/-- C6 (amended): null, empty or wrongly-dimensioned input yields the EMPTY
result list without consulting the gallery (the result does not depend on
the search capability at all), a gallery-query error also degrades to the
empty list, and only a returned row with a missing label or distance
degrades to the per-query `("Unknown", +infinity)` pair; resolution is a
total function, so no exception propagates. -/
theorem resolver_error_handling (search : List (List ℚ) → Except String (List SearchResult))
    (t : ℚ) (msg : String) (v : List ℚ) (rows : List (List ℚ)) (inp : EmbInput)
    (hv : v.length ≠ 512) (hrows : lastDim rows ≠ 512) :
    batch_vector_search search EmbInput.null t = []
    ∧ batch_vector_search search (EmbInput.vec []) t = []
    ∧ batch_vector_search search (EmbInput.mat []) t = []
    ∧ batch_vector_search search (EmbInput.vec v) t = []
    ∧ batch_vector_search search (EmbInput.mat rows) t = []
    ∧ (∀ s2, batch_vector_search search (EmbInput.vec v) t
          = batch_vector_search s2 (EmbInput.vec v) t)
    ∧ batch_vector_search (fun _ => Except.error msg) inp t = []
    ∧ decideIdentity t (SearchResult.mk none none) = ("Unknown", RDist.inf)
    ∧ (∀ l, decideIdentity t (SearchResult.mk (some l) none) = ("Unknown", RDist.inf))
    ∧ (∀ d, decideIdentity t (SearchResult.mk none (some d)) = ("Unknown", RDist.inf)) := by
  have hvec : ∀ (s2 : List (List ℚ) → Except String (List SearchResult)),
      batch_vector_search s2 (EmbInput.vec v) t = [] := by
    intro s2
    by_cases h0 : v.length = 0
    · simp [batch_vector_search, embLen, h0]
    · have hguard : (matSize (toMat (EmbInput.vec v)) = 0
          ∨ lastDim (toMat (EmbInput.vec v)) ≠ 512) := by
        simp only [toMat, matSize, lastDim, List.map_cons, List.map_nil, List.sum_cons,
          List.sum_nil]
        exact Or.inr hv
      simp [batch_vector_search, embLen, h0, hguard]
  refine ⟨rfl, by simp [batch_vector_search, embLen], by simp [batch_vector_search, embLen],
    hvec search, ?_, fun s2 => (hvec search).trans (hvec s2).symm, ?_, rfl, fun l => rfl,
    fun d => rfl⟩
  · by_cases h0 : rows.length = 0
    · simp [batch_vector_search, embLen, h0]
    · have hguard : (matSize (toMat (EmbInput.mat rows)) = 0
          ∨ lastDim (toMat (EmbInput.mat rows)) ≠ 512) := Or.inr hrows
      simp [batch_vector_search, embLen, h0, hguard]
  · match inp with
    | EmbInput.null => rfl
    | EmbInput.vec w =>
      by_cases h0 : w.length = 0
      · simp [batch_vector_search, embLen, h0]
      · by_cases hg : (matSize (toMat (EmbInput.vec w)) = 0
            ∨ lastDim (toMat (EmbInput.vec w)) ≠ 512)
        · simp [batch_vector_search, embLen, h0, hg]
        · simp [batch_vector_search, embLen, h0, hg]
    | EmbInput.mat m =>
      by_cases h0 : m.length = 0
      · simp [batch_vector_search, embLen, h0]
      · by_cases hg : (matSize (toMat (EmbInput.mat m)) = 0
            ∨ lastDim (toMat (EmbInput.mat m)) ≠ 512)
        · simp [batch_vector_search, embLen, h0, hg]
        · simp [batch_vector_search, embLen, h0, hg]

/-- C6 witness for the amended property: a 3-dimensional query and a
failing gallery, all degrading to the empty list or the defensive
`("Unknown", +infinity)` row. -/
theorem resolver_error_handling_witness :
    (([0, 0, 0] : List ℚ).length ≠ 512)
    ∧ lastDim [[(1 : ℚ)]] ≠ 512
    ∧ (batch_vector_search (fun _ => Except.ok []) EmbInput.null (2 / 5) = []
        ∧ batch_vector_search (fun _ => Except.ok []) (EmbInput.vec []) (2 / 5) = []
        ∧ batch_vector_search (fun _ => Except.ok []) (EmbInput.mat []) (2 / 5) = []
        ∧ batch_vector_search (fun _ => Except.ok []) (EmbInput.vec [0, 0, 0]) (2 / 5) = []
        ∧ batch_vector_search (fun _ => Except.ok []) (EmbInput.mat [[(1 : ℚ)]]) (2 / 5) = []
        ∧ (∀ s2, batch_vector_search (fun _ => Except.ok [])
              (EmbInput.vec [0, 0, 0]) (2 / 5)
            = batch_vector_search s2 (EmbInput.vec [0, 0, 0]) (2 / 5))
        ∧ batch_vector_search (fun _ => Except.error "LanceDB search error")
            (EmbInput.vec [0, 0, 0]) (2 / 5) = []
        ∧ decideIdentity (2 / 5) (SearchResult.mk none none) = ("Unknown", RDist.inf)
        ∧ (∀ l, decideIdentity (2 / 5) (SearchResult.mk (some l) none)
              = ("Unknown", RDist.inf))
        ∧ (∀ d, decideIdentity (2 / 5) (SearchResult.mk none (some d))
              = ("Unknown", RDist.inf))) :=
  ⟨by decide, by decide,
    resolver_error_handling (fun _ => Except.ok []) (2 / 5) "LanceDB search error"
      [0, 0, 0] [[(1 : ℚ)]] (EmbInput.vec [0, 0, 0]) (by decide) (by decide)⟩

/-- C5: the merged global timeline is a permutation of the concatenated
per-camera lists, sorted ascending by the `(timestamp, camera_id,
frame_id)` key; the sort is stable (any key-ordered pair of the input
remains a sublist of the output, so equal keys keep input order, making
the merge deterministic), and events with equal global time are ordered by
camera id and then frame id. -/
theorem timeline_merge (cams : List (List Det)) :
    (merge_results cams).Perm cams.flatten
    ∧ List.Pairwise (fun a b => detLe a b = true) (merge_results cams)
    ∧ (∀ a b : Det, detLe a b = true → List.Sublist [a, b] cams.flatten →
        List.Sublist [a, b] (merge_results cams))
    ∧ List.Pairwise
        (fun a b => a.timestamp = b.timestamp →
          natListLtb (codes a.camera_id) (codes b.camera_id) = true
          ∨ (codes a.camera_id = codes b.camera_id ∧ a.frame_id ≤ b.frame_id))
        (merge_results cams) := by
  letI : IsTotal Det (fun a b => detLe a b = true) := ⟨detLe_total⟩
  letI : IsTrans Det (fun a b => detLe a b = true) := ⟨detLe_trans⟩
  have hsorted : List.Pairwise (fun a b => detLe a b = true) (merge_results cams) :=
    List.sorted_insertionSort _ _
  refine ⟨List.perm_insertionSort _ _, hsorted, ?_, ?_⟩
  · intro a b hab hsub
    exact List.pair_sublist_insertionSort hab hsub
  · refine hsorted.imp ?_
    intro a b hle heq
    rcases (detLe_iff a b).1 hle with h | ⟨_, h⟩ | ⟨_, h1, h2⟩
    · rw [heq] at h
      exact absurd h (lt_irrefl _)
    · exact Or.inl h
    · exact Or.inr ⟨h1, h2⟩

/-- C5 witness: the merge of the two per-camera lists of the P6 example:
`cam_02@2` and `cam_01@1` from one camera file, `cam_03@1` from another;
the merged order is `cam_01@1, cam_03@1, cam_02@2` (equal times ordered by
camera id), and it satisfies all four merge properties. -/
theorem timeline_merge_witness :
    merge_results
        [[Det.mk 2 "cam_02" 5 "CRIM_001" "B" 0, Det.mk 1 "cam_01" 3 "CRIM_002" "B" 0],
          [Det.mk 1 "cam_03" 7 "CRIM_003" "B" 0]]
      = [Det.mk 1 "cam_01" 3 "CRIM_002" "B" 0, Det.mk 1 "cam_03" 7 "CRIM_003" "B" 0,
          Det.mk 2 "cam_02" 5 "CRIM_001" "B" 0]
    ∧ ((merge_results
          [[Det.mk 2 "cam_02" 5 "CRIM_001" "B" 0, Det.mk 1 "cam_01" 3 "CRIM_002" "B" 0],
            [Det.mk 1 "cam_03" 7 "CRIM_003" "B" 0]]).Perm
          ([[Det.mk 2 "cam_02" 5 "CRIM_001" "B" 0, Det.mk 1 "cam_01" 3 "CRIM_002" "B" 0],
            [Det.mk 1 "cam_03" 7 "CRIM_003" "B" 0]] : List (List Det)).flatten
        ∧ List.Pairwise (fun a b => detLe a b = true)
            (merge_results
              [[Det.mk 2 "cam_02" 5 "CRIM_001" "B" 0, Det.mk 1 "cam_01" 3 "CRIM_002" "B" 0],
                [Det.mk 1 "cam_03" 7 "CRIM_003" "B" 0]])
        ∧ (∀ a b : Det, detLe a b = true →
            List.Sublist [a, b] ([[Det.mk 2 "cam_02" 5 "CRIM_001" "B" 0,
                Det.mk 1 "cam_01" 3 "CRIM_002" "B" 0],
                [Det.mk 1 "cam_03" 7 "CRIM_003" "B" 0]] : List (List Det)).flatten →
              List.Sublist [a, b] (merge_results
                [[Det.mk 2 "cam_02" 5 "CRIM_001" "B" 0,
                  Det.mk 1 "cam_01" 3 "CRIM_002" "B" 0],
                  [Det.mk 1 "cam_03" 7 "CRIM_003" "B" 0]]))
        ∧ List.Pairwise
            (fun a b => a.timestamp = b.timestamp →
              natListLtb (codes a.camera_id) (codes b.camera_id) = true
              ∨ (codes a.camera_id = codes b.camera_id ∧ a.frame_id ≤ b.frame_id))
            (merge_results
              [[Det.mk 2 "cam_02" 5 "CRIM_001" "B" 0, Det.mk 1 "cam_01" 3 "CRIM_002" "B" 0],
                [Det.mk 1 "cam_03" 7 "CRIM_003" "B" 0]])) :=
  ⟨by decide,
    timeline_merge
      [[Det.mk 2 "cam_02" 5 "CRIM_001" "B" 0, Det.mk 1 "cam_01" 3 "CRIM_002" "B" 0],
        [Det.mk 1 "cam_03" 7 "CRIM_003" "B" 0]]⟩

end CopCam
